import Mathlib

/-!
# Verification of the mlx-lm-playground repository

A shallow embedding, in Lean 4, of the deterministic parts of the
`qa_generator` pipeline (`models.py`, `nodes/parser.py`, `nodes/synthesizer.py`,
`nodes/generator.py`, `nodes/critic.py`) and of the `mlxchat` chat engine and
configuration merging (`engine.py`, `config.py`), together with theorems that
settle the specification claims about them.

Modelling conventions:
* Python strings are modelled as Lean `String`s; character-level operations
  (`strip`, `lower`, substring `in`, `startswith`, `isdigit`) are defined on
  the underlying `List Char` (`String.data`), mirroring CPython semantics on
  the ASCII data the program manipulates.
* Python `list(set(xs))` has an unspecified order; it is modelled as the
  first-occurrence de-duplication `pyDedup xs` (multiplicity and membership
  agree with the Python value, order is a canonical choice).
* LLM calls (`generate_with_validation`, `stream_generate`/`generate`) are
  modelled as function parameters: the surrounding deterministic code is
  verified for every possible response.
* Pydantic `field_validator`s are modelled as Boolean predicates; a model
  instance is constructible iff its validator returns `true`.
-/

set_option autoImplicit false

/-! ## Python string primitives -/

/-- Python `str.strip()` on the character list of a string. -/
def pyStrip (l : List Char) : List Char :=
  ((l.dropWhile Char.isWhitespace).reverse.dropWhile Char.isWhitespace).reverse

/-- Python `str.strip()` returning a `String`. -/
def pyStripS (s : String) : String := String.mk (pyStrip s.data)

/-- Python `str.lower()` on the character list of a string (via `Char.toLower`). -/
def pyLower (l : List Char) : List Char := l.map Char.toLower

/-- Python substring test `needle in hay`. -/
def pyIn (needle hay : List Char) : Bool := decide (needle <:+: hay)

/-- Python `s.startswith(pre)`. -/
def pyStartswith (s pre : List Char) : Bool := decide (pre <+: s)

/-- Python `s.isdigit()` restricted to ASCII digits: nonempty and all digits. -/
def pyIsdigit (l : List Char) : Bool := !l.isEmpty && l.all Char.isDigit

/-- Worker for `pyDedup`: keep the first occurrence of each element. -/
def pyDedupGo {α : Type} [DecidableEq α] (seen : List α) : List α → List α
  | [] => []
  | x :: xs => if x ∈ seen then pyDedupGo seen xs else x :: pyDedupGo (x :: seen) xs

/-- Model of Python `list(set(xs))`: duplicates removed (first occurrence kept). -/
def pyDedup {α : Type} [DecidableEq α] (l : List α) : List α := pyDedupGo [] l

/-- Insertion step of the string sort used to model Python `sorted`. -/
def insertStr (x : String) : List String → List String
  | [] => [x]
  | y :: ys => if decide (x ≤ y) then x :: y :: ys else y :: insertStr x ys

/-- Model of Python `sorted` on a list of strings (insertion sort). -/
def sortStrings : List String → List String
  | [] => []
  | x :: xs => insertStr x (sortStrings xs)

/-- Python `', '.join(sorted(xs))`. -/
def pySortedJoin (l : List String) : String := String.intercalate ", " (sortStrings l)

/-- Python `f"{n:03d}"` for a nonnegative `n`: zero-pad the decimal form to width 3. -/
def pad3 (n : Nat) : String :=
  if n < 10 then "00" ++ toString n
  else if n < 100 then "0" ++ toString n
  else toString n

/-! ## `qa_generator/models.py`: data model -/

/-- `Scenario.type` / part of `TestCase.case_type`: `"functional" | "integration" | "e2e"`. -/
inductive ScenarioType where
  | functional
  | integration
  | e2e
deriving Repr, DecidableEq

/-- `Scenario.risk`: `"low" | "medium" | "high"`. -/
inductive RiskLevel where
  | low
  | medium
  | high
deriving Repr, DecidableEq

/-- `TestCase.priority`: `"P0" | "P1" | "P2" | "P3"`. -/
inductive PriorityLevel where
  | P0
  | P1
  | P2
  | P3
deriving Repr, DecidableEq

/-- `TestCase.case_type`: `"functional" | "integration" | "e2e" | "negative" | "boundary"`. -/
inductive CaseType where
  | functional
  | integration
  | e2e
  | negative
  | boundary
deriving Repr, DecidableEq

/-- `models.AcceptanceCriteria`. -/
structure AcceptanceCriteria where
  id : String
  text : String
deriving Repr, DecidableEq

/-- `models.Scenario`.  `description`/`tags` accepted by the LLM schema are not
model fields; `data`-free fields are carried verbatim. -/
structure Scenario where
  id : String
  title : String
  type : ScenarioType
  risk : RiskLevel
  related_requirements : List String
  preconditions : Option String
  variants : Option (List String)
deriving Repr, DecidableEq

/-- `models.TestCase`.  The opaque JSON `data` payload is modelled as an
optional string; no claim depends on its structure. -/
structure TestCase where
  id : String
  scenario_id : String
  case_type : CaseType
  priority : PriorityLevel
  steps : List String
  data : Option String
  expected : List String
  negative : Bool
  tags : Option (List String)
deriving Repr, DecidableEq

/-- `models.OpenQuestion`. -/
structure OpenQuestion where
  id : String
  text : String
  blocking : Bool
  related_requirements : Option (List String)
deriving Repr, DecidableEq

/-- `AcceptanceCriteria.validate_id_format`:
`v.startswith('AC') and v[2:].isdigit()`. -/
def validate_ac_id (v : String) : Bool :=
  pyStartswith v.data "AC".data && pyIsdigit (v.data.drop 2)

/-- `Scenario.validate_scenario_id`:
`v.startswith('SCN-') and v[4:].isdigit()`. -/
def validate_scenario_id (v : String) : Bool :=
  pyStartswith v.data "SCN-".data && pyIsdigit (v.data.drop 4)

/-- `TestCase.validate_test_case_id`:
`v.startswith('TC-') and v[3:].isdigit()`. -/
def validate_test_case_id (v : String) : Bool :=
  pyStartswith v.data "TC-".data && pyIsdigit (v.data.drop 3)

/-- `OpenQuestion.validate_question_id`:
`v.startswith('Q-') and v[2:].isdigit()`. -/
def validate_question_id (v : String) : Bool :=
  pyStartswith v.data "Q-".data && pyIsdigit (v.data.drop 2)

/-! ## `qa_generator/nodes/parser.py`: AC normalization -/

/-- Loop body of `ParseRequirements._normalize_acceptance_criteria`:
`for i, criterion in enumerate(criteria, 1)`, the ID `f"AC{i}"` is taken from
the raw enumeration index, then blank entries are skipped with `continue`. -/
def normalize_acceptance_criteria_go (i : Nat) : List String → List AcceptanceCriteria
  | [] => []
  | c :: rest =>
    let cleaned := pyStripS c
    if cleaned.data.isEmpty then
      normalize_acceptance_criteria_go (i + 1) rest
    else
      { id := "AC" ++ toString i, text := cleaned } :: normalize_acceptance_criteria_go (i + 1) rest

/-- `ParseRequirements._normalize_acceptance_criteria`. -/
def normalize_acceptance_criteria (criteria : List String) : List AcceptanceCriteria :=
  normalize_acceptance_criteria_go 1 criteria

/-! ## `qa_generator/nodes/synthesizer.py`: scenario post-processing -/

/-- The negative-title keywords shared by
`ScenarioSynthesizer._is_likely_positive_scenario` and
`CaseGenerator._is_negative_scenario`. -/
def negative_indicators : List String :=
  ["invalid", "error", "fail", "missing", "empty", "wrong",
   "unauthorized", "forbidden", "denied", "timeout", "limit"]

/-- Title classification used by `_is_likely_positive_scenario`:
no negative indicator occurs in the lower-cased title. -/
def is_likely_positive_title (title : String) : Bool :=
  !(negative_indicators.any (fun ind => pyIn ind.data (pyLower title.data)))

/-- `ScenarioSynthesizer._is_likely_positive_scenario`. -/
def is_likely_positive_scenario (s : Scenario) : Bool :=
  is_likely_positive_title s.title

/-- `ScenarioSynthesizer._is_likely_negative_scenario`. -/
def is_likely_negative_scenario (s : Scenario) : Bool :=
  !(is_likely_positive_scenario s)

/-- Scenario ID `f"SCN-{n:03d}"`. -/
def scnId (n : Nat) : String := "SCN-" ++ pad3 n

/-- `ScenarioSynthesizer._fix_scenario_ids`: renumber to `SCN-001, SCN-002, …`.
The duplicate-resolution `while` loop in the source is unreachable: the fresh
IDs are generated from distinct sequential indices, so `used_ids` never
contains the candidate. -/
def fix_scenario_ids (scenarios : List Scenario) : List Scenario :=
  scenarios.mapIdx (fun i s => { s with id := scnId (i + 1) })

/-- `ScenarioSynthesizer._create_default_positive_scenario`. -/
def create_default_positive_scenario (ac : AcceptanceCriteria) (scenario_id : String) : Scenario :=
  { id := scenario_id
    title := "Valid case for " ++ ac.id
    type := .functional
    risk := .medium
    related_requirements := [ac.id]
    preconditions := some "System is in normal operating state"
    variants := none }

/-- `ScenarioSynthesizer._create_default_negative_scenario`. -/
def create_default_negative_scenario (ac : AcceptanceCriteria) (scenario_id : String) : Scenario :=
  { id := scenario_id
    title := "Invalid case for " ++ ac.id
    type := .functional
    risk := .medium
    related_requirements := [ac.id]
    preconditions := some "System is in normal operating state"
    variants := none }

/-- `ScenarioSynthesizer._analyze_scenario_coverage` followed by
`.get(ac_id, [])`: the scenarios related to a given AC, in input order. -/
def scenarios_covering (ss : List Scenario) (acId : String) : List Scenario :=
  ss.filter (fun s => s.related_requirements.contains acId)

/-- The `additional_scenarios` accumulation of
`ScenarioSynthesizer._ensure_ac_coverage`: one default positive and/or
negative scenario per AC missing that polarity, `next_id` advancing once per
appended scenario.  The source's two sequential `if not has_positive` /
`if not has_negative` blocks are written as the four explicit cases. -/
def coverage_additions (ss : List Scenario) : List AcceptanceCriteria → Nat → List Scenario
  | [], _ => []
  | ac :: rest, next_id =>
    if (scenarios_covering ss ac.id).any is_likely_positive_scenario then
      if (scenarios_covering ss ac.id).any is_likely_negative_scenario then
        coverage_additions ss rest next_id
      else
        create_default_negative_scenario ac (scnId next_id) ::
          coverage_additions ss rest (next_id + 1)
    else
      if (scenarios_covering ss ac.id).any is_likely_negative_scenario then
        create_default_positive_scenario ac (scnId next_id) ::
          coverage_additions ss rest (next_id + 1)
      else
        create_default_positive_scenario ac (scnId next_id) ::
          create_default_negative_scenario ac (scnId (next_id + 1)) ::
            coverage_additions ss rest (next_id + 2)

/-- `ScenarioSynthesizer._ensure_ac_coverage`: `scenarios + additional_scenarios`
with `next_id = len(scenarios) + 1`. -/
def ensure_ac_coverage (ss : List Scenario) (acs : List AcceptanceCriteria) : List Scenario :=
  ss ++ coverage_additions ss acs (ss.length + 1)

/-- `ScenarioSynthesizer._validate_ac_references`: drop invalid AC references;
skip scenarios left with none. -/
def validate_ac_references (ss : List Scenario) (acs : List AcceptanceCriteria) : List Scenario :=
  let valid := acs.map (·.id)
  ss.filterMap (fun s =>
    let vr := s.related_requirements.filter (fun r => valid.contains r)
    if vr.isEmpty then none else some { s with related_requirements := vr })

/-- `ScenarioSynthesizer._post_process_scenarios`: fix IDs, ensure AC coverage,
validate AC references. -/
def post_process_scenarios (raw : List Scenario) (acs : List AcceptanceCriteria) : List Scenario :=
  validate_ac_references (ensure_ac_coverage (fix_scenario_ids raw) acs) acs

/-! ## `qa_generator/exceptions.py` / `nodes/critic.py`: G1 gates -/

/-- `exceptions.G1ValidationError` (its three data attributes). -/
structure G1Error where
  violated_rules : List String
  offending_ids : List String
  details : String
deriving Repr, DecidableEq

/-- `G1Validator.validate_g1_1`: every AC is covered by at least one scenario.
Returns the raised error, or `none` when the gate passes. -/
def validate_g1_1 (acs : List AcceptanceCriteria) (scenarios : List Scenario) : Option G1Error :=
  let all_ac_ids := pyDedup (acs.map (·.id))
  let uncovered := all_ac_ids.filter
    (fun i => !(scenarios.any (fun s => s.related_requirements.contains i)))
  if uncovered.isEmpty then none
  else some { violated_rules := ["G1.1"]
              offending_ids := uncovered
              details := "ACs without scenario coverage: " ++ pySortedJoin uncovered }

/-- `G1Validator.validate_g1_2`: every scenario has at least one test case. -/
def validate_g1_2 (scenarios : List Scenario) (tcs : List TestCase) : Option G1Error :=
  let sids := pyDedup (scenarios.map (·.id))
  let uncovered := sids.filter (fun i => !(tcs.any (fun tc => tc.scenario_id == i)))
  if uncovered.isEmpty then none
  else some { violated_rules := ["G1.2"]
              offending_ids := uncovered
              details := "Scenarios without test cases: " ++ pySortedJoin uncovered }

/-- `G1Validator._build_ac_to_test_cases_map` followed by `.get(ac.id, [])`:
test cases reaching an AC through its scenarios. -/
def ac_test_cases (scenarios : List Scenario) (tcs : List TestCase) (acId : String) : List TestCase :=
  (scenarios.filter (fun s => s.related_requirements.contains acId)).flatMap
    (fun s => tcs.filter (fun tc => tc.scenario_id == s.id))

/-- The `(violations, offending_ids)` accumulation of `validate_g1_3`:
per AC, one `G1.3` entry for a missing positive case and one for a missing
negative case. -/
def g1_3_accum (scenarios : List Scenario) (tcs : List TestCase)
    (acs : List AcceptanceCriteria) : List String × List String :=
  acs.foldl
    (fun vo ac =>
      let cases := ac_test_cases scenarios tcs ac.id
      let vo1 := if (cases.filter (fun tc => !tc.negative)).isEmpty
                 then (vo.1 ++ ["G1.3"], vo.2 ++ [ac.id]) else vo
      if (cases.filter (fun tc => tc.negative)).isEmpty
      then (vo1.1 ++ ["G1.3"], vo1.2 ++ [ac.id]) else vo1)
    ([], [])

/-- `G1Validator.validate_g1_3`: each AC has a positive and a negative test case. -/
def validate_g1_3 (acs : List AcceptanceCriteria) (scenarios : List Scenario)
    (tcs : List TestCase) : Option G1Error :=
  let vo := g1_3_accum scenarios tcs acs
  if vo.1.isEmpty then none
  else some { violated_rules := pyDedup vo.1
              offending_ids := pyDedup vo.2
              details := "ACs missing positive/negative coverage: " ++ pySortedJoin (pyDedup vo.2) }

/-- `G1Validator._find_duplicates`: the distinct items occurring at least twice. -/
def find_duplicates (items : List String) : List String :=
  pyDedup (items.filter (fun x => 2 ≤ items.count x))

/-- The `(violations, offending_ids)` accumulation of `validate_g1_4`:
duplicate AC, scenario and test-case IDs, then dangling scenario-to-AC and
test-case-to-scenario references. -/
def g1_4_accum (acs : List AcceptanceCriteria) (scenarios : List Scenario)
    (tcs : List TestCase) : List String × List String :=
  let ac_ids := acs.map (·.id)
  let dup_ac := find_duplicates ac_ids
  let v1 : List String × List String := if dup_ac.isEmpty then ([], []) else (["G1.4"], dup_ac)
  let s_ids := scenarios.map (·.id)
  let dup_s := find_duplicates s_ids
  let v2 := if dup_s.isEmpty then v1 else (v1.1 ++ ["G1.4"], v1.2 ++ dup_s)
  let tc_ids := tcs.map (·.id)
  let dup_tc := find_duplicates tc_ids
  let v3 := if dup_tc.isEmpty then v2 else (v2.1 ++ ["G1.4"], v2.2 ++ dup_tc)
  let v4 := scenarios.foldl
    (fun vo s =>
      if (s.related_requirements.filter (fun r => !(ac_ids.contains r))).isEmpty then vo
      else (vo.1 ++ ["G1.4"], vo.2 ++ [s.id])) v3
  tcs.foldl
    (fun vo tc =>
      if s_ids.contains tc.scenario_id then vo
      else (vo.1 ++ ["G1.4"], vo.2 ++ [tc.id])) v4

/-- `G1Validator.validate_g1_4`: ID uniqueness and reference validity. -/
def validate_g1_4 (acs : List AcceptanceCriteria) (scenarios : List Scenario)
    (tcs : List TestCase) : Option G1Error :=
  let vo := g1_4_accum acs scenarios tcs
  if vo.1.isEmpty then none
  else some { violated_rules := pyDedup vo.1
              offending_ids := pyDedup vo.2
              details := "ID uniqueness or reference violations: " ++ pySortedJoin (pyDedup vo.2) }

/-- The `violated_rules` of an optional gate error (empty when the gate passed). -/
def optRules : Option G1Error → List String
  | none => []
  | some e => e.violated_rules

/-- The `offending_ids` of an optional gate error (empty when the gate passed). -/
def optIds : Option G1Error → List String
  | none => []
  | some e => e.offending_ids

/-- `G1Validator.validate_all_gates`: run all four gates, accumulate their
violations and offending IDs, and raise one combined error if anything failed. -/
def validate_all_gates (acs : List AcceptanceCriteria) (scenarios : List Scenario)
    (tcs : List TestCase) : Option G1Error :=
  let r1 := validate_g1_1 acs scenarios
  let r2 := validate_g1_2 scenarios tcs
  let r3 := validate_g1_3 acs scenarios tcs
  let r4 := validate_g1_4 acs scenarios tcs
  let violations := optRules r1 ++ optRules r2 ++ optRules r3 ++ optRules r4
  let offending := optIds r1 ++ optIds r2 ++ optIds r3 ++ optIds r4
  if violations.isEmpty then none
  else some { violated_rules := violations
              offending_ids := offending
              details := "Found " ++ toString violations.length ++
                " G1 violations across " ++ toString (pyDedup offending).length ++ " items" }

/-! ## `nodes/critic.py`: `CoverageCritic._identify_error_handling_gaps` -/

/-- The keyword list of `_identify_error_handling_gaps`. -/
def validation_keywords : List String :=
  ["required", "must", "validate", "check", "verify", "format"]

/-- `suggests_validation`: some keyword occurs in the lower-cased AC text. -/
def suggests_validation (text : String) : Bool :=
  validation_keywords.any (fun w => pyIn w.data (pyLower text.data))

/-- `getattr(tc, 'related_requirements', [])`: `TestCase` declares no
`related_requirements` field, so the `getattr` always yields the default `[]`. -/
def test_case_related_requirements (_tc : TestCase) : List String := []

/-- The open question emitted by `_identify_error_handling_gaps` for an AC. -/
def error_handling_question (ac : AcceptanceCriteria) : OpenQuestion :=
  { id := ""
    text := "AC " ++ ac.id ++ " suggests validation but has no negative test cases. " ++
      "What should happen when validation fails?"
    blocking := true
    related_requirements := some [ac.id] }

/-- `CoverageCritic._identify_error_handling_gaps`.  The trace filter
`any(s for s in [tc.scenario_id] if ac.id in getattr(tc, 'related_requirements', []))`
filters the singleton by the (always false) membership test and then checks
truthiness of the kept strings. -/
def identify_error_handling_gaps (acs : List AcceptanceCriteria) (tcs : List TestCase) :
    List OpenQuestion :=
  acs.flatMap (fun ac =>
    if suggests_validation ac.text then
      if ((tcs.filter (fun tc =>
            (([tc.scenario_id].filter
                (fun _s => (test_case_related_requirements tc).contains ac.id)).any
              (fun s => !s.data.isEmpty)))).filter (fun tc => tc.negative)).isEmpty
      then [error_handling_question ac]
      else []
    else [])

/-! ## `qa_generator/nodes/generator.py`: test-case generation -/

/-- `Constraints.priority_policy`: `"risk_weighted" | "uniform"`. -/
inductive PriorityPolicy where
  | risk_weighted
  | uniform
deriving Repr, DecidableEq

/-- Test-case ID `f"TC-{n:03d}"`. -/
def tcId (n : Nat) : String := "TC-" ++ pad3 n

/-- `CaseGenerator._fix_test_case_ids`: renumber the given list to
`TC-001, TC-002, …` starting from 1. -/
def fix_test_case_ids (tcs : List TestCase) : List TestCase :=
  tcs.mapIdx (fun i tc => { tc with id := tcId (i + 1) })

/-- `CaseGenerator._validate_scenario_references`: keep only test cases whose
`scenario_id` names a scenario of the batch. -/
def validate_scenario_references (tcs : List TestCase) (scenarios : List Scenario) :
    List TestCase :=
  let valid := scenarios.map (·.id)
  tcs.filter (fun tc => valid.contains tc.scenario_id)

/-- `CaseGenerator._is_negative_scenario` (same keywords as the synthesizer). -/
def is_negative_scenario (s : Scenario) : Bool :=
  negative_indicators.any (fun ind => pyIn ind.data (pyLower s.title.data))

/-- The scenario type reused as a test-case type by the minimal coverage case. -/
def scenario_type_case : ScenarioType → CaseType
  | .functional => .functional
  | .integration => .integration
  | .e2e => .e2e

/-- The minimal test case `_ensure_scenario_coverage` creates for an uncovered
scenario. -/
def minimal_test_case (s : Scenario) (n : Nat) : TestCase :=
  { id := tcId n
    scenario_id := s.id
    case_type := scenario_type_case s.type
    priority := .P2
    steps := ["Execute test scenario: " ++ s.title]
    data := none
    expected := ["Scenario " ++ s.id ++ " completes successfully"]
    negative := is_negative_scenario s
    tags := some ["auto-generated"] }

/-- `CaseGenerator._ensure_scenario_coverage`: append a minimal case for each
scenario that no test case references, IDs continuing at `len(test_cases)+1`. -/
def ensure_scenario_coverage (tcs : List TestCase) (scenarios : List Scenario) :
    List TestCase :=
  let covered := tcs.map (·.scenario_id)
  let uncovered := scenarios.filter (fun s => !(covered.contains s.id))
  tcs ++ uncovered.mapIdx (fun i s => minimal_test_case s (tcs.length + 1 + i))

/-- The dict `{s.id: s.risk for s in scenarios}` with `.get(sid, "medium")`:
a later entry overwrites an earlier one. -/
def scenario_risk_lookup (scenarios : List Scenario) (sid : String) : RiskLevel :=
  match scenarios.reverse.find? (fun s => s.id == sid) with
  | some s => s.risk
  | none => .medium

/-- The risk-weighted priority table of `_refine_priorities`. -/
def risk_weighted_priority (risk : RiskLevel) (neg : Bool) : PriorityLevel :=
  match risk, neg with
  | .high, false => .P0
  | .high, true => .P1
  | .medium, false => .P1
  | .medium, true => .P2
  | .low, false => .P2
  | .low, true => .P3

/-- The uniform-policy priority table of `_refine_priorities`. -/
def uniform_priority (ct : CaseType) (neg : Bool) : PriorityLevel :=
  if ct == .boundary then .P3
  else if neg then .P2
  else .P1

/-- The per-case body of `_refine_priorities`: the recomputed priority, every
other field carried over. -/
def refine_one (scenarios : List Scenario) (pol : PriorityPolicy) (tc : TestCase) : TestCase :=
  { tc with priority :=
      match pol with
      | .risk_weighted =>
          risk_weighted_priority (scenario_risk_lookup scenarios tc.scenario_id) tc.negative
      | .uniform => uniform_priority tc.case_type tc.negative }

/-- `CaseGenerator._refine_priorities`: recompute each case's priority from the
parent scenario's risk (policy `risk_weighted`, the default via
`priority_policy or "risk_weighted"`) or from the case type and negativity
(policy `uniform`). -/
def refine_priorities (tcs : List TestCase) (scenarios : List Scenario)
    (policy : Option PriorityPolicy) : List TestCase :=
  tcs.map (refine_one scenarios (policy.getD .risk_weighted))

/-- The per-case body of `_validate_test_case_completeness`: fill empty steps
and expected results with placeholders. -/
def complete_test_case (tc : TestCase) : TestCase :=
  let tc1 := if tc.steps.isEmpty then { tc with steps := ["Execute test case"] } else tc
  if tc1.expected.isEmpty then { tc1 with expected := ["Test case completes successfully"] }
  else tc1

/-- `CaseGenerator._validate_test_case_completeness`. -/
def validate_test_case_completeness (tcs : List TestCase) : List TestCase :=
  tcs.map complete_test_case

/-- `CaseGenerator._post_process_test_cases` on one batch. -/
def post_process_test_cases (tcs : List TestCase) (scenarios : List Scenario)
    (policy : Option PriorityPolicy) : List TestCase :=
  validate_test_case_completeness
    (refine_priorities
      (ensure_scenario_coverage
        (validate_scenario_references (fix_test_case_ids tcs) scenarios)
        scenarios)
      scenarios policy)

/-- The batching loop `for i in range(0, len(scenarios), 5)`, fuelled by the
list length so that it computes structurally. -/
def batches5 : Nat → List Scenario → List (List Scenario)
  | 0, _ => []
  | _, [] => []
  | fuel + 1, l => l.take 5 :: batches5 fuel (l.drop 5)

/-- `CaseGenerator.process`: the LLM call `_generate_batch_test_cases` is the
parameter `gen`; each batch is post-processed and the results concatenated. -/
def case_generator_process (gen : List Scenario → List TestCase)
    (policy : Option PriorityPolicy) (scenarios : List Scenario) : List TestCase :=
  (batches5 scenarios.length scenarios).foldl
    (fun acc batch => acc ++ post_process_test_cases (gen batch) batch policy) []

/-! ## `mlxchat/engine.py`: generation fallback and the empty-input guard -/

/-- A Python exception as observed by `engine._try_stream_tokens`: a
`TypeError` carrying its message, or any other exception. -/
inductive PyErr where
  | typeError (msg : String)
  | otherError (msg : String)
deriving Repr, DecidableEq

/-- The KV-cache parameter names of `_strip_unknown_kv_args` and of the
message test in `_try_stream_tokens`. -/
def kv_param_names : List String :=
  ["kv_bits", "kv_group_size", "quantized_kv_start", "max_kv_size"]

/-- `any(k in msg for k in ("kv_bits", "kv_group_size", "quantized_kv_start", "max_kv_size"))`. -/
def msg_mentions_kv_param (msg : String) : Bool :=
  kv_param_names.any (fun k => pyIn k.data msg.data)

/-- A keyword-argument value of the generation call (opaque where the claims
do not inspect it). -/
inductive PyVal where
  | vStr (s : String)
  | vInt (n : Int)
  | vObj (tag : String)
deriving Repr, DecidableEq

/-- `Engine._strip_unknown_kv_args`: drop the four KV-cache keys. -/
def strip_unknown_kv_args (kw : List (String × PyVal)) : List (String × PyVal) :=
  kw.filter (fun p => !(kv_param_names.contains p.1))

/-- `Engine._try_stream_tokens`.  The streaming backend
(`stream_generate`/`generate`) is the parameter `gen`, returning either the
token list or the exception the call raises. -/
def try_stream_tokens (gen : List (String × PyVal) → Except PyErr (List String))
    (kw : List (String × PyVal)) : Except PyErr (List String) :=
  match gen kw with
  | .ok toks => .ok toks
  | .error (.typeError msg) =>
      if msg_mentions_kv_param msg then gen (strip_unknown_kv_args kw)
      else .error (.typeError msg)
  | .error e => .error e

/-- The fields of `types.Params` that `_gen_kwargs`/`stream_reply` consult.
`temp`/`top_p` only feed the opaque sampler object. -/
structure Params where
  max_tokens : Int
  max_kv_size : Option Int
  kv_bits : Option Int
  kv_group_size : Int
  quantized_kv_start : Int
  clear_cache_after : Bool
deriving Repr, DecidableEq

/-- `Engine._gen_kwargs`: the keyword dictionary, in insertion order. -/
def gen_kwargs (p : Params) (promptCacheEnabled : Bool) (prompt : String) :
    List (String × PyVal) :=
  [("model", .vObj "model"), ("tokenizer", .vObj "tokenizer"), ("prompt", .vStr prompt),
   ("max_tokens", .vInt p.max_tokens), ("sampler", .vObj "sampler")]
  ++ (if promptCacheEnabled then [("prompt_cache", .vObj "prompt_cache")] else [])
  ++ (match p.max_kv_size with
      | some n => if 0 < n then [("max_kv_size", .vInt n)] else []
      | none => [])
  ++ (match p.kv_bits with
      | some b => [("kv_bits", .vInt b), ("kv_group_size", .vInt p.kv_group_size),
                   ("quantized_kv_start", .vInt p.quantized_kv_start)]
      | none => [])

/-- One chat-history message. -/
structure ChatMsg where
  role : String
  content : String
deriving Repr, DecidableEq

/-- The observable outcome of one `stream_reply` call: the yielded fragments,
the history afterwards, and whether the cache was cleared. -/
structure ReplyResult where
  fragments : List String
  messages : List ChatMsg
  cache_cleared : Bool
deriving Repr, DecidableEq

/-- `Engine.stream_reply`.  `applyChatTemplate` models the tokenizer's
chat-template rendering; `gen` is the streaming backend as in
`try_stream_tokens`. -/
def stream_reply (applyChatTemplate : List ChatMsg → String)
    (gen : List (String × PyVal) → Except PyErr (List String))
    (p : Params) (promptCacheEnabled : Bool) (messages : List ChatMsg)
    (user_text : String) : Except PyErr ReplyResult :=
  if (pyStrip user_text.data).isEmpty then
    .ok { fragments := ["Please enter something non-empty."]
          messages := messages
          cache_cleared := false }
  else
    let msgs1 := messages ++ [{ role := "user", content := user_text }]
    let prompt := applyChatTemplate msgs1
    let kw := gen_kwargs p promptCacheEnabled prompt
    match try_stream_tokens gen kw with
    | .error e => .error e
    | .ok toks =>
        .ok { fragments := toks
              messages := msgs1 ++ [{ role := "assistant", content := String.join toks }]
              cache_cleared := p.clear_cache_after }

/-! ## `mlxchat/config.py`: `_coerce` for `kv_bits` and the merge -/

/-- Decimal value of an ASCII digit list. -/
def digitsVal (ds : List Char) : Int :=
  ds.foldl (fun acc c => acc * 10 + (Int.ofNat (c.toNat - 48))) 0

/-- Model of Python `int(str)`: surrounding whitespace stripped, an optional
sign, then a nonempty run of digits; anything else raises (returns `none`). -/
def py_int_of_chars (l : List Char) : Option Int :=
  match pyStrip l with
  | '-' :: ds => if pyIsdigit ds then some (-(digitsVal ds)) else none
  | '+' :: ds => if pyIsdigit ds then some (digitsVal ds) else none
  | ds => if pyIsdigit ds then some (digitsVal ds) else none

/-- `_coerce('kv_bits', v)` for a string `v`:
`s = str(v).strip().lower(); None if s in {"", "none"} else int(v)`, with a
failing `int(v)` caught and turned into `None`. -/
def coerce_kv_bits (v : String) : Option Int :=
  let s := pyLower (pyStrip v.data)
  if s.isEmpty || s == "none".data then none
  else py_int_of_chars v.data

/-- One step of the `overlay` loop of `merged_config` for the `kv_bits` key:
`if k in d and d[k] is not None: settings[k] = d[k]`. -/
def overlay_kv_bits (cur new : Option Int) : Option Int :=
  match new with
  | none => cur
  | some n => some n

/-- The `kv_bits` field of `merged_config()`: defaults (`None`), then the user
file, the project file, and the coerced environment variable, each overlaid
only when present and not `None`. -/
def merged_kv_bits (user_file proj_file : Option Int) (env_var : Option String) : Option Int :=
  let env := match env_var with
    | none => none
    | some s => coerce_kv_bits s
  overlay_kv_bits (overlay_kv_bits (overlay_kv_bits none user_file) proj_file) env

/-! ## Concrete instances used by witnesses and counterexamples -/

/-- A six-scenario input: two generation batches (5 + 1). -/
def six_scenarios : List Scenario :=
  [⟨scnId 1, "First", .functional, .low, ["AC1"], none, none⟩,
   ⟨scnId 2, "Second", .functional, .low, ["AC1"], none, none⟩,
   ⟨scnId 3, "Third", .functional, .low, ["AC1"], none, none⟩,
   ⟨scnId 4, "Fourth", .functional, .low, ["AC1"], none, none⟩,
   ⟨scnId 5, "Fifth", .functional, .low, ["AC1"], none, none⟩,
   ⟨scnId 6, "Sixth", .functional, .low, ["AC1"], none, none⟩]

/-- A sample acceptance criterion whose text suggests validation. -/
def ac1 : AcceptanceCriteria := ⟨"AC1", "ZIP code is required"⟩

/-- Keyword arguments containing a KV-cache parameter. -/
def kv_kwargs : List (String × PyVal) := [("prompt", .vStr "hi"), ("kv_bits", .vInt 4)]

/-- A backend rejecting the KV argument on the full call and succeeding once
it is stripped. -/
def gen_kv_reject : List (String × PyVal) → Except PyErr (List String) :=
  fun kw =>
    if kw.length == 1 then .ok ["ok"]
    else .error (.typeError "generate_step() got an unexpected keyword argument kv_bits")

/-- A backend failing with a `TypeError` unrelated to KV parameters. -/
def gen_type_err : List (String × PyVal) → Except PyErr (List String) :=
  fun _ => .error (.typeError "unsupported operand type")

/-- A backend failing with a non-`TypeError` exception. -/
def gen_value_err : List (String × PyVal) → Except PyErr (List String) :=
  fun _ => .error (.otherError "boom")

/-- A backend succeeding directly. -/
def gen_plain_ok : List (String × PyVal) → Except PyErr (List String) :=
  fun _ => .ok ["direct"]

/-- A sample scenario of high risk for the priority-policy witness. -/
def high_risk_scenario : Scenario :=
  ⟨"SCN-001", "Checkout payment", .functional, .high, ["AC1"], none, none⟩

/-- The single test case the generator produces for `[high_risk_scenario]`
when the LLM returns nothing: the minimal coverage case, refined to `P0`. -/
def p0_case : TestCase :=
  { id := "TC-001"
    scenario_id := "SCN-001"
    case_type := .functional
    priority := .P0
    steps := ["Execute test scenario: Checkout payment"]
    data := none
    expected := ["Scenario SCN-001 completes successfully"]
    negative := false
    tags := some ["auto-generated"] }

/-! ## General-purpose lemmas -/

/-- An element produced by `mapIdx` comes from some element of the list. -/
theorem mem_mapIdx_elim {α β : Type} (f : Nat → α → β) (l : List α) (y : β)
    (h : y ∈ l.mapIdx f) : ∃ i a, a ∈ l ∧ y = f i a := by
  rw [List.mapIdx_eq_enum_map] at h
  obtain ⟨⟨i, a⟩, hmem, heq⟩ := List.mem_map.mp h
  refine ⟨i, a, ?_, heq.symm⟩
  have h2 := List.mk_mem_enum_iff_getElem?.mp hmem
  exact List.get?_mem (by rw [List.get?_eq_getElem?]; exact h2)

/-- Lower-casing fixes ASCII digits. -/
theorem isDigit_toLower (c : Char) (h : c.isDigit = true) : c.toLower = c := by
  simp only [Char.isDigit, decide_eq_true_eq, Bool.and_eq_true, decide_eq_true_iff] at h
  have h2 : c.toNat ≤ 57 := h.2
  have hc : ¬ (c.toNat ≥ 65 ∧ c.toNat ≤ 90) := by omega
  unfold Char.toLower
  simp [hc]

/-- An infix of `l ++ [d]` is an infix of `l` or contains `d`. -/
theorem isInfix_concat_elim {α : Type} {t l : List α} {d : α}
    (h : t <:+: l ++ [d]) : t <:+: l ∨ d ∈ t := by
  obtain ⟨a, b, hab⟩ := h
  cases b using List.reverseRecOn with
  | nil =>
    rw [List.append_nil] at hab
    cases t using List.reverseRecOn with
    | nil => exact Or.inl List.nil_infix
    | append_singleton t0 tl =>
      rw [← List.append_assoc] at hab
      have h2 := List.append_inj' hab rfl
      have : tl = d := by simpa using h2.2
      exact Or.inr (by simp [this])
  | append_singleton b0 bl =>
    rw [← List.append_assoc] at hab
    have h2 := List.append_inj' hab rfl
    exact Or.inl ⟨a, b0, h2.1⟩

/-- An infix of `xs ++ ys` is an infix of `xs`, or shares an element with `ys`. -/
theorem isInfix_append_elim {α : Type} {t xs ys : List α}
    (h : t <:+: xs ++ ys) : t <:+: xs ∨ ∃ c, c ∈ t ∧ c ∈ ys := by
  induction ys using List.reverseRecOn with
  | nil =>
    rw [List.append_nil] at h
    exact Or.inl h
  | append_singleton ys0 d ih =>
    rw [← List.append_assoc] at h
    rcases isInfix_concat_elim h with h' | hd
    · rcases ih h' with h'' | ⟨c, hc, hcy⟩
      · exact Or.inl h''
      · exact Or.inr ⟨c, hc, by simp [hcy]⟩
    · exact Or.inr ⟨d, hd, by simp⟩

/-- A Python substring test over `fixed ++ ds` fails when the needle has no
digits, does not occur in `fixed`, and `ds` is all digits. -/
theorem pyIn_false_of_digit_disjoint (ind fixed ds : List Char)
    (hnd : ind.all (fun c => !c.isDigit) = true)
    (hfix : pyIn ind fixed = false)
    (hds : ds.all Char.isDigit = true) :
    pyIn ind (fixed ++ ds) = false := by
  unfold pyIn at hfix ⊢
  rw [decide_eq_false_iff_not] at hfix ⊢
  intro hin
  rcases isInfix_append_elim hin with h' | ⟨c, hc, hcy⟩
  · exact hfix h'
  · have h1 := (List.all_eq_true.mp hnd) c hc
    have h2 := (List.all_eq_true.mp hds) c hcy
    simp [h2] at h1

/-- `pyDedup` of a nonempty list is nonempty. -/
theorem pyDedup_ne_nil {α : Type} [DecidableEq α] (l : List α) (h : l ≠ []) :
    pyDedup l ≠ [] := by
  cases l with
  | nil => exact absurd rfl h
  | cons x xs => simp [pyDedup, pyDedupGo]

/-- Membership in a fold that appends a contribution per element. -/
theorem mem_foldl_append {α β : Type} (g : β → List α) (l : List β) (init : List α) (x : α)
    (h : x ∈ l.foldl (fun acc b => acc ++ g b) init) :
    x ∈ init ∨ ∃ b, b ∈ l ∧ x ∈ g b := by
  induction l generalizing init with
  | nil => exact Or.inl h
  | cons hd tl ih =>
    simp only [List.foldl_cons] at h
    rcases ih (init ++ g hd) h with h' | h'
    · rcases List.mem_append.mp h' with h'' | h''
      · exact Or.inl h''
      · exact Or.inr ⟨hd, by simp, h''⟩
    · rcases h' with ⟨b, hb, hx⟩
      exact Or.inr ⟨b, by simp [hb], hx⟩

/-- Every batch produced by `batches5` is a sublist (as a set) of the input. -/
theorem batches5_subset : ∀ (fuel : Nat) (l b : List Scenario),
    b ∈ batches5 fuel l → b ⊆ l := by
  intro fuel
  induction fuel with
  | zero => intro l b h; simp [batches5] at h
  | succ n ih =>
    intro l b h
    cases l with
    | nil => simp [batches5] at h
    | cons hd tl =>
      rw [show batches5 (n + 1) (hd :: tl)
            = (hd :: tl).take 5 :: batches5 n ((hd :: tl).drop 5) from rfl] at h
      rcases List.mem_cons.mp h with heq | hmem
      · subst heq; exact List.take_subset 5 (hd :: tl)
      · exact (ih _ b hmem).trans (List.drop_subset 5 (hd :: tl))

/-- Bridge between Boolean `contains` and membership. -/
theorem contains_iff_mem {α : Type} [BEq α] [LawfulBEq α] (l : List α) (x : α) :
    l.contains x = true ↔ x ∈ l := by
  simp [List.contains]

/-- A string passing the AC-ID validator is `AC` followed by digits. -/
theorem valid_ac_id_data (v : String) (h : validate_ac_id v = true) :
    ∃ ds, v.data = 'A' :: 'C' :: ds ∧ ds.all Char.isDigit = true := by
  unfold validate_ac_id pyStartswith pyIsdigit at h
  rw [Bool.and_eq_true] at h
  obtain ⟨h1, h2⟩ := h
  obtain ⟨t, ht⟩ := of_decide_eq_true h1
  have hv : v.data = 'A' :: 'C' :: t := by rw [← ht]; rfl
  refine ⟨t, hv, ?_⟩
  rw [hv] at h2
  rw [Bool.and_eq_true] at h2
  exact h2.2

/-- Lower-casing a digit string is the identity. -/
theorem pyLower_digits (ds : List Char) (h : ds.all Char.isDigit = true) :
    pyLower ds = ds := by
  unfold pyLower
  have hfix : ∀ c ∈ ds, Char.toLower c = c :=
    fun c hc => isDigit_toLower c (List.all_eq_true.mp h c hc)
  calc ds.map Char.toLower = ds.map id := List.map_congr_left hfix
    _ = ds := List.map_id ds

/-- Lower-cased default positive title for a well-formed AC ID. -/
theorem lower_default_positive_title (acid : String) (ds : List Char)
    (hdata : acid.data = 'A' :: 'C' :: ds) (hds : ds.all Char.isDigit = true) :
    pyLower ("Valid case for " ++ acid).data = "valid case for ac".data ++ ds := by
  unfold pyLower
  rw [String.data_append, List.map_append, hdata]
  rw [show ("Valid case for " : String).data.map Char.toLower = "valid case for ".data from by decide]
  rw [List.map_cons, List.map_cons]
  rw [show Char.toLower 'A' = 'a' from by decide, show Char.toLower 'C' = 'c' from by decide]
  rw [show ds.map Char.toLower = ds from pyLower_digits ds hds]
  rw [show ('a' :: 'c' :: ds) = ['a', 'c'] ++ ds from rfl, ← List.append_assoc]
  congr 1

/-- The default positive scenario is classified positive whenever the AC ID is
well-formed (`AC` + digits): no negative keyword can occur in its title. -/
theorem default_positive_classified (ac : AcceptanceCriteria)
    (h : validate_ac_id ac.id = true) (sid : String) :
    is_likely_positive_scenario (create_default_positive_scenario ac sid) = true := by
  obtain ⟨ds, hdata, hds⟩ := valid_ac_id_data ac.id h
  show is_likely_positive_title ("Valid case for " ++ ac.id) = true
  unfold is_likely_positive_title
  rw [Bool.not_eq_true']
  apply List.any_eq_false.mpr
  intro ind hind
  simp only [Bool.not_eq_true]
  rw [lower_default_positive_title ac.id ds hdata hds]
  have hpack : negative_indicators.all
      (fun ind => ind.data.all (fun c => !c.isDigit) &&
        !(pyIn ind.data "valid case for ac".data)) = true := by decide
  have hp := List.all_eq_true.mp hpack ind hind
  rw [Bool.and_eq_true] at hp
  refine pyIn_false_of_digit_disjoint ind.data _ ds hp.1 ?_ hds
  rw [← Bool.not_eq_true']
  exact hp.2

/-- The default negative scenario is always classified negative: its title
starts with `Invalid`. -/
theorem default_negative_classified (ac : AcceptanceCriteria) (sid : String) :
    is_likely_positive_scenario (create_default_negative_scenario ac sid) = false := by
  show is_likely_positive_title ("Invalid case for " ++ ac.id) = false
  unfold is_likely_positive_title
  rw [Bool.not_eq_false']
  apply List.any_eq_true.mpr
  refine ⟨"invalid", by simp [negative_indicators], ?_⟩
  unfold pyIn
  apply decide_eq_true
  have hlow : pyLower ("Invalid case for " ++ ac.id).data
      = "invalid case for ".data ++ pyLower ac.id.data := by
    unfold pyLower
    rw [String.data_append, List.map_append]
    congr 1
  rw [hlow]
  obtain ⟨t, ht⟩ : "invalid".data <+: "invalid case for ".data := by decide
  refine ⟨[], t ++ pyLower ac.id.data, ?_⟩
  rw [List.nil_append, ← List.append_assoc, ht]

/-- Scenarios covering an AC are drawn from the list and do relate to the AC. -/
theorem scenarios_covering_elim (ss : List Scenario) (acid : String) (s : Scenario)
    (hs : s ∈ scenarios_covering ss acid) :
    s ∈ ss ∧ s.related_requirements.contains acid = true :=
  ⟨(List.mem_filter.mp hs).1, (List.mem_filter.mp hs).2⟩

/-- The coverage additions for a tail AC list embed into those for the whole
list (at some starting ID). -/
theorem coverage_additions_mem_tail (ss : List Scenario) (hd : AcceptanceCriteria)
    (rest : List AcceptanceCriteria) (n : Nat) :
    ∃ m, ∀ x, x ∈ coverage_additions ss rest m → x ∈ coverage_additions ss (hd :: rest) n := by
  rcases Bool.eq_false_or_eq_true ((scenarios_covering ss hd.id).any is_likely_positive_scenario)
    with hpos | hpos <;>
  rcases Bool.eq_false_or_eq_true ((scenarios_covering ss hd.id).any is_likely_negative_scenario)
    with hneg | hneg
  · exact ⟨n, fun x hx => by simp [coverage_additions, hpos, hneg]; exact hx⟩
  · exact ⟨n + 1, fun x hx => by simp [coverage_additions, hpos, hneg]; exact Or.inr hx⟩
  · exact ⟨n + 1, fun x hx => by simp [coverage_additions, hpos, hneg]; exact Or.inr hx⟩
  · exact ⟨n + 2, fun x hx => by simp [coverage_additions, hpos, hneg]; exact Or.inr (Or.inr hx)⟩

/-- After `_ensure_ac_coverage`, every AC with a well-formed ID has a related
scenario classified positive. -/
theorem ensure_ac_coverage_positive (ss : List Scenario) :
    ∀ (acs : List AcceptanceCriteria) (ac : AcceptanceCriteria), ac ∈ acs →
      validate_ac_id ac.id = true → ∀ n : Nat,
      ∃ s, s ∈ ss ++ coverage_additions ss acs n ∧
        s.related_requirements.contains ac.id = true ∧
        is_likely_positive_scenario s = true := by
  intro acs
  induction acs with
  | nil => intro ac hac; cases hac
  | cons hd rest ih =>
    intro ac hac hid n
    rcases List.mem_cons.mp hac with heq | hmem
    · subst heq
      rcases Bool.eq_false_or_eq_true
          ((scenarios_covering ss ac.id).any is_likely_positive_scenario) with hpos | hpos
      · obtain ⟨s, hs, hps⟩ := List.any_eq_true.mp hpos
        obtain ⟨hss, hcont⟩ := scenarios_covering_elim ss ac.id s hs
        exact ⟨s, List.mem_append_left _ hss, hcont, hps⟩
      · refine ⟨create_default_positive_scenario ac (scnId n),
          List.mem_append_right ss ?_, by simp [create_default_positive_scenario],
          default_positive_classified ac hid _⟩
        rcases Bool.eq_false_or_eq_true
            ((scenarios_covering ss ac.id).any is_likely_negative_scenario) with hneg | hneg <;>
          simp [coverage_additions, hpos, hneg]
    · obtain ⟨m, hm⟩ := coverage_additions_mem_tail ss hd rest n
      obtain ⟨s, hsmem, hc, hp⟩ := ih ac hmem hid m
      rcases List.mem_append.mp hsmem with h' | h'
      · exact ⟨s, List.mem_append_left _ h', hc, hp⟩
      · exact ⟨s, List.mem_append_right _ (hm s h'), hc, hp⟩

/-- After `_ensure_ac_coverage`, every AC has a related scenario classified
negative. -/
theorem ensure_ac_coverage_negative (ss : List Scenario) :
    ∀ (acs : List AcceptanceCriteria) (ac : AcceptanceCriteria), ac ∈ acs →
      ∀ n : Nat,
      ∃ s, s ∈ ss ++ coverage_additions ss acs n ∧
        s.related_requirements.contains ac.id = true ∧
        is_likely_positive_scenario s = false := by
  intro acs
  induction acs with
  | nil => intro ac hac; cases hac
  | cons hd rest ih =>
    intro ac hac n
    rcases List.mem_cons.mp hac with heq | hmem
    · subst heq
      rcases Bool.eq_false_or_eq_true
          ((scenarios_covering ss ac.id).any is_likely_negative_scenario) with hneg | hneg
      · obtain ⟨s, hs, hns⟩ := List.any_eq_true.mp hneg
        obtain ⟨hss, hcont⟩ := scenarios_covering_elim ss ac.id s hs
        refine ⟨s, List.mem_append_left _ hss, hcont, ?_⟩
        unfold is_likely_negative_scenario at hns
        simpa using hns
      · rcases Bool.eq_false_or_eq_true
            ((scenarios_covering ss ac.id).any is_likely_positive_scenario) with hpos | hpos
        · refine ⟨create_default_negative_scenario ac (scnId n),
            List.mem_append_right ss ?_, by simp [create_default_negative_scenario],
            default_negative_classified ac _⟩
          simp [coverage_additions, hpos, hneg]
        · refine ⟨create_default_negative_scenario ac (scnId (n + 1)),
            List.mem_append_right ss ?_, by simp [create_default_negative_scenario],
            default_negative_classified ac _⟩
          simp [coverage_additions, hpos, hneg]
    · obtain ⟨m, hm⟩ := coverage_additions_mem_tail ss hd rest n
      obtain ⟨s, hsmem, hc, hp⟩ := ih ac hmem m
      rcases List.mem_append.mp hsmem with h' | h'
      · exact ⟨s, List.mem_append_left _ h', hc, hp⟩
      · exact ⟨s, List.mem_append_right _ (hm s h'), hc, hp⟩

/-- Every scenario appended by the coverage step is one of the two default
scenarios for some AC of the input. -/
theorem coverage_additions_shape (ss : List Scenario) :
    ∀ (acs : List AcceptanceCriteria) (n : Nat) (s : Scenario),
      s ∈ coverage_additions ss acs n →
      ∃ ac', ac' ∈ acs ∧
        (s = create_default_positive_scenario ac' s.id ∨
         s = create_default_negative_scenario ac' s.id) := by
  intro acs
  induction acs with
  | nil => intro n s h; simp [coverage_additions] at h
  | cons hd rest ih =>
    intro n s h
    rcases Bool.eq_false_or_eq_true ((scenarios_covering ss hd.id).any is_likely_positive_scenario)
      with hpos | hpos <;>
    rcases Bool.eq_false_or_eq_true ((scenarios_covering ss hd.id).any is_likely_negative_scenario)
      with hneg | hneg <;>
    simp only [coverage_additions, hpos, hneg, Bool.false_eq_true, if_false, if_true,
      List.mem_cons] at h
    · obtain ⟨ac', hmem, hor⟩ := ih _ s h
      exact ⟨ac', by simp [hmem], hor⟩
    · rcases h with h1 | h1
      · exact ⟨hd, by simp, Or.inr (by rw [h1]; rfl)⟩
      · obtain ⟨ac', hmem, hor⟩ := ih _ s h1
        exact ⟨ac', by simp [hmem], hor⟩
    · rcases h with h1 | h1
      · exact ⟨hd, by simp, Or.inl (by rw [h1]; rfl)⟩
      · obtain ⟨ac', hmem, hor⟩ := ih _ s h1
        exact ⟨ac', by simp [hmem], hor⟩
    · rcases h with h1 | h1 | h1
      · exact ⟨hd, by simp, Or.inl (by rw [h1]; rfl)⟩
      · exact ⟨hd, by simp, Or.inr (by rw [h1]; rfl)⟩
      · obtain ⟨ac', hmem, hor⟩ := ih _ s h1
        exact ⟨ac', by simp [hmem], hor⟩

/-- A scenario related to a listed AC survives `_validate_ac_references` with
its title intact and the relation preserved. -/
theorem validate_ac_references_preserves (ss : List Scenario) (acs : List AcceptanceCriteria)
    (s : Scenario) (hs : s ∈ ss) (ac : AcceptanceCriteria) (hac : ac ∈ acs)
    (hrel : s.related_requirements.contains ac.id = true) :
    ∃ s', s' ∈ validate_ac_references ss acs ∧ s'.title = s.title ∧
      s'.related_requirements.contains ac.id = true := by
  unfold validate_ac_references
  have hmem : ac.id ∈ s.related_requirements.filter (fun r => (acs.map (·.id)).contains r) := by
    apply List.mem_filter.mpr
    refine ⟨(contains_iff_mem _ _).mp hrel, ?_⟩
    exact (contains_iff_mem _ _).mpr (List.mem_map.mpr ⟨ac, hac, rfl⟩)
  have hne : (s.related_requirements.filter (fun r => (acs.map (·.id)).contains r)).isEmpty
      = false := by
    rcases hl : s.related_requirements.filter (fun r => (acs.map (·.id)).contains r) with _ | _
    · rw [hl] at hmem; cases hmem
    · rw [hl]; rfl
  refine ⟨{ s with related_requirements :=
      s.related_requirements.filter (fun r => (acs.map (·.id)).contains r) }, ?_, rfl, ?_⟩
  · apply List.mem_filterMap.mpr
    exact ⟨s, hs, by simp only [hne, Bool.false_eq_true, if_false]⟩
  · exact (contains_iff_mem _ _).mpr hmem

/-- A test case surviving `_validate_scenario_references` has its parent in the
batch. -/
theorem mem_validate_scenario_references (tcs : List TestCase) (scenarios : List Scenario)
    (tc : TestCase) (h : tc ∈ validate_scenario_references tcs scenarios) :
    ∃ s, s ∈ scenarios ∧ s.id = tc.scenario_id := by
  unfold validate_scenario_references at h
  have h2 := (List.mem_filter.mp h).2
  obtain ⟨s, hs, hsid⟩ := List.mem_map.mp ((contains_iff_mem _ _).mp h2)
  exact ⟨s, hs, hsid⟩

/-- Every case in the output of scenario-coverage completion (over validated
references) has its parent scenario in the batch. -/
theorem ensure_coverage_parent (x : List TestCase) (b : List Scenario) (tc : TestCase)
    (h : tc ∈ ensure_scenario_coverage (validate_scenario_references x b) b) :
    ∃ s, s ∈ b ∧ s.id = tc.scenario_id := by
  simp only [ensure_scenario_coverage] at h
  rcases List.mem_append.mp h with h1 | h1
  · exact mem_validate_scenario_references x b tc h1
  · obtain ⟨i, a, ha, heq⟩ := mem_mapIdx_elim _ _ tc h1
    exact ⟨a, (List.mem_filter.mp ha).1, by rw [heq]; rfl⟩

/-- The risk map lookup returns the risk of some scenario of the batch with the
looked-up ID, provided one exists. -/
theorem scenario_risk_lookup_elim (b : List Scenario) (sid : String)
    (h : ∃ s, s ∈ b ∧ s.id = sid) :
    ∃ s, s ∈ b ∧ s.id = sid ∧ scenario_risk_lookup b sid = s.risk := by
  unfold scenario_risk_lookup
  rcases hf : b.reverse.find? (fun s => s.id == sid) with _ | s
  · obtain ⟨s, hs, hsid⟩ := h
    have hnone := List.find?_eq_none.mp hf s (List.mem_reverse.mpr hs)
    simp [hsid] at hnone
  · have h1 := List.find?_some hf
    have h2 : s ∈ b := List.mem_reverse.mp (List.mem_of_find?_eq_some hf)
    exact ⟨s, h2, by simpa using h1, by rw [hf]⟩

/-- `complete_test_case` only touches `steps` and `expected`. -/
theorem complete_test_case_fields (tc : TestCase) :
    (complete_test_case tc).priority = tc.priority ∧
    (complete_test_case tc).scenario_id = tc.scenario_id ∧
    (complete_test_case tc).negative = tc.negative ∧
    (complete_test_case tc).case_type = tc.case_type := by
  simp only [complete_test_case]
  split <;> split <;> exact ⟨rfl, rfl, rfl, rfl⟩

/-- Any case produced by one batch's post-processing has its parent scenario in
the batch and carries the policy-determined priority. -/
theorem post_process_priority (cs : List TestCase) (b : List Scenario)
    (pol : Option PriorityPolicy) (tc : TestCase)
    (h : tc ∈ post_process_test_cases cs b pol) :
    ∃ s, s ∈ b ∧ s.id = tc.scenario_id ∧
      (pol.getD .risk_weighted = .risk_weighted →
        tc.priority = risk_weighted_priority s.risk tc.negative) ∧
      (pol.getD .risk_weighted = .uniform →
        tc.priority = uniform_priority tc.case_type tc.negative) := by
  unfold post_process_test_cases validate_test_case_completeness refine_priorities at h
  obtain ⟨tc1, h1, heq1⟩ := List.mem_map.mp h
  obtain ⟨tc0, h0, heq0⟩ := List.mem_map.mp h1
  obtain ⟨hcp, hcs, hcn, hct⟩ := complete_test_case_fields tc1
  have hparent := ensure_coverage_parent (fix_test_case_ids cs) b tc0 h0
  have hsidf : tc.scenario_id = tc0.scenario_id := by
    rw [← heq1, hcs, ← heq0]; rfl
  have hnegf : tc.negative = tc0.negative := by
    rw [← heq1, hcn, ← heq0]; rfl
  have hctf : tc.case_type = tc0.case_type := by
    rw [← heq1, hct, ← heq0]; rfl
  rcases hpol : pol.getD .risk_weighted with _ | _
  · obtain ⟨s, hsb, hsid, hrisk⟩ := scenario_risk_lookup_elim b tc0.scenario_id hparent
    refine ⟨s, hsb, ?_, ?_, ?_⟩
    · rw [hsidf]; exact hsid
    · intro _
      have hpr : tc.priority = risk_weighted_priority (scenario_risk_lookup b tc0.scenario_id)
          tc0.negative := by
        rw [← heq1, hcp, ← heq0]
        simp [refine_one, hpol]
      rw [hpr, hrisk, hnegf]
    · intro hc; cases hc
  · obtain ⟨s, hsb, hsid⟩ := hparent
    refine ⟨s, hsb, ?_, ?_, ?_⟩
    · rw [hsidf]; exact hsid
    · intro hc; cases hc
    · intro _
      have hpr : tc.priority = uniform_priority tc0.case_type tc0.negative := by
        rw [← heq1, hcp, ← heq0]
        simp [refine_one, hpol]
      rw [hpr, hnegf, hctf]

/-- Gate G1.1 passes exactly when it contributes no rules. -/
theorem optRules_g1_1_nil (acs : List AcceptanceCriteria) (scenarios : List Scenario) :
    optRules (validate_g1_1 acs scenarios) = [] ↔ validate_g1_1 acs scenarios = none := by
  simp only [validate_g1_1]
  split <;> simp [optRules]

/-- Gate G1.2 passes exactly when it contributes no rules. -/
theorem optRules_g1_2_nil (scenarios : List Scenario) (tcs : List TestCase) :
    optRules (validate_g1_2 scenarios tcs) = [] ↔ validate_g1_2 scenarios tcs = none := by
  simp only [validate_g1_2]
  split <;> simp [optRules]

/-- Gate G1.3 passes exactly when it contributes no rules. -/
theorem optRules_g1_3_nil (acs : List AcceptanceCriteria) (scenarios : List Scenario)
    (tcs : List TestCase) :
    optRules (validate_g1_3 acs scenarios tcs) = [] ↔ validate_g1_3 acs scenarios tcs = none := by
  simp only [validate_g1_3]
  split
  · simp [optRules]
  · next h =>
    simp only [optRules]
    constructor
    · intro hnil
      exact absurd hnil (pyDedup_ne_nil _ (fun hn => h (by simp [hn])))
    · intro hc; cases hc

/-- Gate G1.4 passes exactly when it contributes no rules. -/
theorem optRules_g1_4_nil (acs : List AcceptanceCriteria) (scenarios : List Scenario)
    (tcs : List TestCase) :
    optRules (validate_g1_4 acs scenarios tcs) = [] ↔ validate_g1_4 acs scenarios tcs = none := by
  simp only [validate_g1_4]
  split
  · simp [optRules]
  · next h =>
    simp only [optRules]
    constructor
    · intro hnil
      exact absurd hnil (pyDedup_ne_nil _ (fun hn => h (by simp [hn])))
    · intro hc; cases hc

/-- The positivity heuristic reads only the title. -/
theorem is_likely_positive_congr (s' s : Scenario) (h : s'.title = s.title) :
    is_likely_positive_scenario s' = is_likely_positive_scenario s := by
  unfold is_likely_positive_scenario
  rw [h]

/-! ## Claim theorems -/

/-- C1: the spec (and the repository's own test
`test_normalize_empty_criteria_filtered`) states that blank entries are skipped
without leaving numbering gaps, so `["Valid criterion", "", "  ", "Another
valid criterion"]` should normalize to `AC1`/`AC2`.  The code takes the ID
from the raw enumeration index before the blank check, producing `AC1`/`AC4`:
this theorem evaluates the embedded code at that failing input. -/
theorem C1_normalize_acceptance_criteria_gap :
    normalize_acceptance_criteria ["Valid criterion", "", "  ", "Another valid criterion"]
      = [⟨"AC1", "Valid criterion"⟩, ⟨"AC4", "Another valid criterion"⟩] := by
  decide

/-- C2: the spec states test-case IDs `TC-001, TC-002, …` are sequential and
unique across the whole accumulated output of all 5-scenario batches.  The
code renumbers per batch from `TC-001`, so a six-scenario input (with the
generation backend returning nothing, making the coverage step produce one
minimal case per scenario) yields `TC-001` twice: this theorem evaluates the
embedded `CaseGenerator.process` at that failing input. -/
theorem C2_test_case_ids_restart_per_batch :
    (case_generator_process (fun _ => []) (some .risk_weighted) six_scenarios).map TestCase.id
      = ["TC-001", "TC-002", "TC-003", "TC-004", "TC-005", "TC-001"] := by
  decide

/-- C3 counterexample: for the single AC `AC1` with no scenarios and no test
cases, gates G1.1 and G1.3 both blame `AC1`, and the raised error's
offending-ID list contains `AC1` twice — the combined list is a concatenation,
not the de-duplicated union the claim states (only the count inside the detail
string is de-duplicated). -/
theorem C3_offending_ids_not_deduplicated :
    validate_all_gates [ac1] [] []
      = some ⟨["G1.1", "G1.3"], ["AC1", "AC1"], "Found 2 G1 violations across 1 items"⟩ ∧
    (["AC1", "AC1"].count "AC1") = 2 := by
  exact ⟨by decide, by decide⟩

/-- C3 (amended): all four G1 gates are evaluated on every run; when any
fails, exactly one error is raised whose rule list is the concatenation of
every failing gate's rules and whose offending-ID list is the concatenation of
every failing gate's (per-gate de-duplicated) offending IDs — an entity
offending under two gates appears once per gate — and whose detail string
reports the total violation count and the number of distinct offending
entities. -/
theorem C3_validate_all_gates_combination :
    ∀ (acs : List AcceptanceCriteria) (scenarios : List Scenario) (tcs : List TestCase),
      (validate_all_gates acs scenarios tcs = none ↔
        (validate_g1_1 acs scenarios = none ∧ validate_g1_2 scenarios tcs = none ∧
         validate_g1_3 acs scenarios tcs = none ∧ validate_g1_4 acs scenarios tcs = none)) ∧
      (∀ e, validate_all_gates acs scenarios tcs = some e →
        e.violated_rules =
          optRules (validate_g1_1 acs scenarios) ++ optRules (validate_g1_2 scenarios tcs) ++
          optRules (validate_g1_3 acs scenarios tcs) ++ optRules (validate_g1_4 acs scenarios tcs)
        ∧ e.offending_ids =
          optIds (validate_g1_1 acs scenarios) ++ optIds (validate_g1_2 scenarios tcs) ++
          optIds (validate_g1_3 acs scenarios tcs) ++ optIds (validate_g1_4 acs scenarios tcs)
        ∧ e.details = "Found " ++ toString e.violated_rules.length ++
            " G1 violations across " ++ toString (pyDedup e.offending_ids).length ++ " items") := by
  intro acs scenarios tcs
  have hdef : validate_all_gates acs scenarios tcs =
      (if (optRules (validate_g1_1 acs scenarios) ++ optRules (validate_g1_2 scenarios tcs) ++
           optRules (validate_g1_3 acs scenarios tcs) ++
           optRules (validate_g1_4 acs scenarios tcs)).isEmpty
       then none
       else some
        { violated_rules :=
            optRules (validate_g1_1 acs scenarios) ++ optRules (validate_g1_2 scenarios tcs) ++
            optRules (validate_g1_3 acs scenarios tcs) ++ optRules (validate_g1_4 acs scenarios tcs)
          offending_ids :=
            optIds (validate_g1_1 acs scenarios) ++ optIds (validate_g1_2 scenarios tcs) ++
            optIds (validate_g1_3 acs scenarios tcs) ++ optIds (validate_g1_4 acs scenarios tcs)
          details := "Found " ++
            toString (optRules (validate_g1_1 acs scenarios) ++
              optRules (validate_g1_2 scenarios tcs) ++
              optRules (validate_g1_3 acs scenarios tcs) ++
              optRules (validate_g1_4 acs scenarios tcs)).length ++
            " G1 violations across " ++
            toString (pyDedup (optIds (validate_g1_1 acs scenarios) ++
              optIds (validate_g1_2 scenarios tcs) ++
              optIds (validate_g1_3 acs scenarios tcs) ++
              optIds (validate_g1_4 acs scenarios tcs))).length ++ " items" }) := rfl
  by_cases hemp : (optRules (validate_g1_1 acs scenarios) ++ optRules (validate_g1_2 scenarios tcs)
      ++ optRules (validate_g1_3 acs scenarios tcs) ++
      optRules (validate_g1_4 acs scenarios tcs)).isEmpty = true
  · rw [hdef, if_pos hemp]
    constructor
    · constructor
      · intro _
        have hnil := List.isEmpty_iff.mp hemp
        have hsplit : optRules (validate_g1_1 acs scenarios) = [] ∧
            optRules (validate_g1_2 scenarios tcs) = [] ∧
            optRules (validate_g1_3 acs scenarios tcs) = [] ∧
            optRules (validate_g1_4 acs scenarios tcs) = [] := by
          simpa [List.append_eq_nil, and_assoc] using hnil
        exact ⟨(optRules_g1_1_nil acs scenarios).mp hsplit.1,
               (optRules_g1_2_nil scenarios tcs).mp hsplit.2.1,
               (optRules_g1_3_nil acs scenarios tcs).mp hsplit.2.2.1,
               (optRules_g1_4_nil acs scenarios tcs).mp hsplit.2.2.2⟩
      · intro _; rfl
    · intro e he
      exact Option.noConfusion he
  · rw [hdef, if_neg hemp]
    constructor
    · constructor
      · intro hc
        exact Option.noConfusion hc
      · rintro ⟨h1, h2, h3, h4⟩
        exact absurd (by rw [h1, h2, h3, h4]; rfl) hemp
    · intro e he
      injection he with he'
      rw [← he']
      exact ⟨rfl, rfl, rfl⟩

/-- C3 witness: the combination theorem applied to the concrete failing input
`[AC1]`, no scenarios, no test cases. -/
theorem C3_combination_witness :
    (⟨["G1.1", "G1.3"], ["AC1", "AC1"],
        "Found 2 G1 violations across 1 items"⟩ : G1Error).violated_rules
      = optRules (validate_g1_1 [ac1] []) ++ optRules (validate_g1_2 [] []) ++
        optRules (validate_g1_3 [ac1] [] []) ++ optRules (validate_g1_4 [ac1] [] []) ∧
    (⟨["G1.1", "G1.3"], ["AC1", "AC1"],
        "Found 2 G1 violations across 1 items"⟩ : G1Error).offending_ids
      = optIds (validate_g1_1 [ac1] []) ++ optIds (validate_g1_2 [] []) ++
        optIds (validate_g1_3 [ac1] [] []) ++ optIds (validate_g1_4 [ac1] [] []) ∧
    (⟨["G1.1", "G1.3"], ["AC1", "AC1"],
        "Found 2 G1 violations across 1 items"⟩ : G1Error).details
      = "Found " ++ toString (⟨["G1.1", "G1.3"], ["AC1", "AC1"],
          "Found 2 G1 violations across 1 items"⟩ : G1Error).violated_rules.length ++
        " G1 violations across " ++
        toString (pyDedup (⟨["G1.1", "G1.3"], ["AC1", "AC1"],
          "Found 2 G1 violations across 1 items"⟩ : G1Error).offending_ids).length ++ " items" :=
  (C3_validate_all_gates_combination [ac1] [] []).2
    ⟨["G1.1", "G1.3"], ["AC1", "AC1"], "Found 2 G1 violations across 1 items"⟩ (by decide)

/-- C4: after the synthesizer's post-processing, every AC (with its
construction-validated `AC<digits>` ID) has at least one related scenario the
title heuristic classifies positive and at least one it classifies negative;
each missing polarity was filled by appending one of the two default scenarios
(`"Valid case for <AC>"` / `"Invalid case for <AC>"`, functional, medium risk,
single related-requirement reference). -/
theorem C4_ac_polarity_coverage :
    ∀ (raw : List Scenario) (acs : List AcceptanceCriteria) (ac : AcceptanceCriteria),
      ac ∈ acs → validate_ac_id ac.id = true →
      (∃ s, s ∈ post_process_scenarios raw acs ∧
        s.related_requirements.contains ac.id = true ∧ is_likely_positive_scenario s = true) ∧
      (∃ s, s ∈ post_process_scenarios raw acs ∧
        s.related_requirements.contains ac.id = true ∧ is_likely_positive_scenario s = false) ∧
      (∀ s, s ∈ coverage_additions (fix_scenario_ids raw) acs ((fix_scenario_ids raw).length + 1) →
        ∃ ac', ac' ∈ acs ∧
          (s = create_default_positive_scenario ac' s.id ∨
           s = create_default_negative_scenario ac' s.id)) := by
  intro raw acs ac hac hid
  refine ⟨?_, ?_, fun s hs => coverage_additions_shape _ acs _ s hs⟩
  · obtain ⟨s, hsmem, hc, hp⟩ :=
      ensure_ac_coverage_positive (fix_scenario_ids raw) acs ac hac hid
        ((fix_scenario_ids raw).length + 1)
    obtain ⟨s', hs', ht, hc'⟩ :=
      validate_ac_references_preserves (ensure_ac_coverage (fix_scenario_ids raw) acs) acs
        s hsmem ac hac hc
    refine ⟨s', hs', hc', ?_⟩
    rw [is_likely_positive_congr s' s ht]
    exact hp
  · obtain ⟨s, hsmem, hc, hp⟩ :=
      ensure_ac_coverage_negative (fix_scenario_ids raw) acs ac hac
        ((fix_scenario_ids raw).length + 1)
    obtain ⟨s', hs', ht, hc'⟩ :=
      validate_ac_references_preserves (ensure_ac_coverage (fix_scenario_ids raw) acs) acs
        s hsmem ac hac hc
    refine ⟨s', hs', hc', ?_⟩
    rw [is_likely_positive_congr s' s ht]
    exact hp

/-- C4 witness: the coverage theorem at the empty scenario list and `[AC1]`. -/
theorem C4_ac_polarity_coverage_witness :
    (∃ s, s ∈ post_process_scenarios [] [ac1] ∧
      s.related_requirements.contains ac1.id = true ∧ is_likely_positive_scenario s = true) ∧
    (∃ s, s ∈ post_process_scenarios [] [ac1] ∧
      s.related_requirements.contains ac1.id = true ∧ is_likely_positive_scenario s = false) ∧
    (∀ s, s ∈ coverage_additions (fix_scenario_ids []) [ac1] ((fix_scenario_ids []).length + 1) →
      ∃ ac', ac' ∈ [ac1] ∧
        (s = create_default_positive_scenario ac' s.id ∨
         s = create_default_negative_scenario ac' s.id)) :=
  C4_ac_polarity_coverage [] [ac1] ac1 (by decide) (by decide)

/-- C5: every test case returned by `CaseGenerator.process` gets its priority
from the policy alone — under `risk_weighted` (also the default) from the
parent scenario's risk and the case's negative flag (high → P0/P1,
medium → P1/P2, low → P2/P3), under `uniform` from the case type and negative
flag (boundary → P3, negative → P2, else P1) — regardless of whatever priority
the LLM response or the coverage-completion step proposed. -/
theorem C5_priority_policy :
    ∀ (gen : List Scenario → List TestCase) (policy : Option PriorityPolicy)
      (scenarios : List Scenario) (tc : TestCase),
      tc ∈ case_generator_process gen policy scenarios →
      ∃ s, s ∈ scenarios ∧ s.id = tc.scenario_id ∧
        (policy.getD .risk_weighted = .risk_weighted →
          tc.priority = risk_weighted_priority s.risk tc.negative) ∧
        (policy.getD .risk_weighted = .uniform →
          tc.priority = uniform_priority tc.case_type tc.negative) := by
  intro gen policy scenarios tc h
  unfold case_generator_process at h
  rcases mem_foldl_append (fun batch => post_process_test_cases (gen batch) batch policy)
      _ [] tc h with h0 | ⟨batch, hb, htc⟩
  · cases h0
  · obtain ⟨s, hsb, hsid, h1, h2⟩ := post_process_priority (gen batch) batch policy tc htc
    exact ⟨s, batches5_subset _ scenarios batch hb hsb, hsid, h1, h2⟩

/-- C5 witness: one high-risk scenario, an empty LLM response; the produced
case carries priority `P0`. -/
theorem C5_priority_policy_witness :
    ∃ s, s ∈ [high_risk_scenario] ∧ s.id = p0_case.scenario_id ∧
      ((some PriorityPolicy.risk_weighted).getD .risk_weighted = .risk_weighted →
        p0_case.priority = risk_weighted_priority s.risk p0_case.negative) ∧
      ((some PriorityPolicy.risk_weighted).getD .risk_weighted = .uniform →
        p0_case.priority = uniform_priority p0_case.case_type p0_case.negative) :=
  C5_priority_policy (fun _ => []) (some .risk_weighted) [high_risk_scenario] p0_case (by decide)

/-- C6: if the first generation attempt fails with a `TypeError` whose message
references any KV-cache parameter name, the engine retries exactly once with
those parameters stripped and the caller observes only the retry's result; a
`TypeError` naming none of them, any other failure, and a success all
propagate unchanged with no retry. -/
theorem C6_kv_fallback :
    ∀ (gen : List (String × PyVal) → Except PyErr (List String)) (kw : List (String × PyVal)),
      (∀ msg, gen kw = .error (.typeError msg) → msg_mentions_kv_param msg = true →
        try_stream_tokens gen kw = gen (strip_unknown_kv_args kw)) ∧
      (∀ msg, gen kw = .error (.typeError msg) → msg_mentions_kv_param msg = false →
        try_stream_tokens gen kw = .error (.typeError msg)) ∧
      (∀ msg, gen kw = .error (.otherError msg) →
        try_stream_tokens gen kw = .error (.otherError msg)) ∧
      (∀ toks, gen kw = .ok toks → try_stream_tokens gen kw = .ok toks) := by
  intro gen kw
  refine ⟨?_, ?_, ?_, ?_⟩
  · intro msg hg hmsg
    unfold try_stream_tokens
    rw [hg]
    simp [hmsg]
  · intro msg hg hmsg
    unfold try_stream_tokens
    rw [hg]
    simp [hmsg]
  · intro msg hg
    unfold try_stream_tokens
    rw [hg]
  · intro toks hg
    unfold try_stream_tokens
    rw [hg]

/-- C6 witness: the four behaviours at concrete backends and keyword
arguments containing `kv_bits`. -/
theorem C6_kv_fallback_witness :
    try_stream_tokens gen_kv_reject kv_kwargs = .ok ["ok"] ∧
    try_stream_tokens gen_type_err kv_kwargs = .error (.typeError "unsupported operand type") ∧
    try_stream_tokens gen_value_err kv_kwargs = .error (.otherError "boom") ∧
    try_stream_tokens gen_plain_ok kv_kwargs = .ok ["direct"] := by
  refine ⟨?_, ?_, ?_, ?_⟩
  · have h := (C6_kv_fallback gen_kv_reject kv_kwargs).1
      "generate_step() got an unexpected keyword argument kv_bits" rfl (by decide)
    rw [h]
    rfl
  · exact (C6_kv_fallback gen_type_err kv_kwargs).2.1 "unsupported operand type" rfl (by decide)
  · exact (C6_kv_fallback gen_value_err kv_kwargs).2.2.1 "boom" rfl
  · exact (C6_kv_fallback gen_plain_ok kv_kwargs).2.2.2 ["direct"] rfl

/-- C7: on input that is empty after stripping, `stream_reply` yields exactly
the one informational fragment, leaves the history untouched, clears no cache,
and never consults the generation backend (the result is independent of both
the tokenizer and the backend). -/
theorem C7_blank_input_guard :
    ∀ (act : List ChatMsg → String) (gen : List (String × PyVal) → Except PyErr (List String))
      (p : Params) (pc : Bool) (messages : List ChatMsg) (text : String),
      pyStrip text.data = [] →
      stream_reply act gen p pc messages text
        = .ok ⟨["Please enter something non-empty."], messages, false⟩ ∧
      (∀ act' gen', stream_reply act gen p pc messages text
        = stream_reply act' gen' p pc messages text) := by
  intro act gen p pc messages text h
  have hempty : (pyStrip text.data).isEmpty = true := by simp [h]
  constructor
  · unfold stream_reply
    rw [if_pos hempty]
  · intro act' gen'
    unfold stream_reply
    rw [if_pos hempty, if_pos hempty]

/-- C7 witness: the guard at the whitespace-only input `"  "`. -/
theorem C7_blank_input_guard_witness :
    stream_reply (fun _ => "prompt") gen_plain_ok
        ⟨512, none, none, 64, 0, false⟩ true [⟨"system", "s"⟩] "  "
      = .ok ⟨["Please enter something non-empty."], [⟨"system", "s"⟩], false⟩ :=
  (C7_blank_input_guard (fun _ => "prompt") gen_plain_ok
    ⟨512, none, none, 64, 0, false⟩ true [⟨"system", "s"⟩] "  " (by decide)).1

/-- C8 counterexample: `MLXCHAT_KV_BITS` set to `"none"` (or `""`) does coerce
to absent, but the merge loop skips absent values exactly like an unset
variable, so the file-configured `kv_bits = 4` survives — the merged
configuration is `some 4`, not absent as the claim states. -/
theorem C8_env_none_does_not_disable_kv_bits :
    coerce_kv_bits "none" = none ∧ coerce_kv_bits "" = none ∧
    merged_kv_bits (some 4) none (some "none") = some 4 ∧
    merged_kv_bits none (some 4) (some "") = some 4 := by
  refine ⟨by decide, by decide, by decide, by decide⟩

/-- C8 (amended): an environment value that coerces to a concrete integer
overrides the file-configured `kv_bits`; a value coercing to `None` (in
particular `""`/`"none"`, case-insensitive, and any unparsable string) is
treated exactly like an unset variable, leaving the file-configured value in
force — the environment cannot express "absent". -/
theorem C8_env_coercion_override :
    (∀ (u p : Option Int) (s : String) (n : Int),
      coerce_kv_bits s = some n → merged_kv_bits u p (some s) = some n) ∧
    (∀ (u p : Option Int) (s : String),
      coerce_kv_bits s = none → merged_kv_bits u p (some s) = merged_kv_bits u p none) := by
  constructor
  · intro u p s n h
    simp only [merged_kv_bits]
    rw [h]
    rfl
  · intro u p s h
    simp only [merged_kv_bits]
    rw [h]

/-- C8 witness: a parsable value overrides; an unparsable value changes
nothing. -/
theorem C8_env_coercion_override_witness :
    (coerce_kv_bits "6" = some 6 ∧ merged_kv_bits (some 4) none (some "6") = some 6) ∧
    (coerce_kv_bits "abc" = none ∧
      merged_kv_bits (some 4) none (some "abc") = merged_kv_bits (some 4) none none) :=
  ⟨⟨by decide, C8_env_coercion_override.1 (some 4) none "6" 6 (by decide)⟩,
   ⟨by decide, C8_env_coercion_override.2 (some 4) none "abc" (by decide)⟩⟩

/-- C9 counterexample: the ID validators require only the prefix plus a
nonempty digit string — no zero-padded 3-digit form — so `SCN-1`, `TC-1` and
`Q-1` are all accepted at construction time, while the claim says they are
rejected. -/
theorem C9_unpadded_ids_accepted :
    validate_scenario_id "SCN-1" = true ∧ validate_test_case_id "TC-1" = true ∧
    validate_question_id "Q-1" = true := by
  refine ⟨by decide, by decide, by decide⟩

/-- C9 (amended): a `Scenario`/`TestCase`/`OpenQuestion` ID is accepted at
construction exactly when it is the prefix (`SCN-`/`TC-`/`Q-`) followed by a
nonempty all-digit string of any length: every digit suffix is accepted
(zero-padded or not), while a missing digit part, a wrong prefix, or a
non-digit character is rejected. -/
theorem C9_id_validators_digit_suffix :
    (∀ ds : List Char, ds ≠ [] → ds.all Char.isDigit = true →
      validate_scenario_id (String.mk ('S' :: 'C' :: 'N' :: '-' :: ds)) = true ∧
      validate_test_case_id (String.mk ('T' :: 'C' :: '-' :: ds)) = true ∧
      validate_question_id (String.mk ('Q' :: '-' :: ds)) = true) ∧
    validate_scenario_id "SCN-001" = true ∧ validate_scenario_id "SCN-1" = true ∧
    validate_scenario_id "SCN-" = false ∧ validate_scenario_id "SC-001" = false ∧
    validate_scenario_id "SCN-0a1" = false := by
  constructor
  · intro ds hne hds
    have h1 : ds.isEmpty = false := by
      cases ds with
      | nil => exact absurd rfl hne
      | cons x xs => rfl
    have hbody : pyIsdigit ds = true := by
      unfold pyIsdigit
      rw [Bool.and_eq_true]
      exact ⟨by simp [h1], hds⟩
    refine ⟨?_, ?_, ?_⟩
    · unfold validate_scenario_id pyStartswith
      rw [Bool.and_eq_true]
      exact ⟨decide_eq_true ⟨ds, rfl⟩, hbody⟩
    · unfold validate_test_case_id pyStartswith
      rw [Bool.and_eq_true]
      exact ⟨decide_eq_true ⟨ds, rfl⟩, hbody⟩
    · unfold validate_question_id pyStartswith
      rw [Bool.and_eq_true]
      exact ⟨decide_eq_true ⟨ds, rfl⟩, hbody⟩
  · refine ⟨by decide, by decide, by decide, by decide, by decide⟩

/-- C9 witness: the digit-suffix acceptance at the one-digit suffix `7`. -/
theorem C9_id_validators_digit_suffix_witness :
    validate_scenario_id (String.mk ['S', 'C', 'N', '-', '7']) = true ∧
    validate_test_case_id (String.mk ['T', 'C', '-', '7']) = true ∧
    validate_question_id (String.mk ['Q', '-', '7']) = true :=
  C9_id_validators_digit_suffix.1 ['7'] (by decide) (by decide)

/-- C10: for every AC whose text contains a validation keyword, the critic's
open-question generation emits the blocking "suggests validation but has no
negative test cases" question for **every** test-case list — the trace filter
reads `related_requirements` off test cases via `getattr` with default `[]`,
a field `TestCase` does not carry, so it always finds zero negative cases. -/
theorem C10_validation_question_always_emitted :
    ∀ (acs : List AcceptanceCriteria) (tcs : List TestCase) (ac : AcceptanceCriteria),
      ac ∈ acs → suggests_validation ac.text = true →
      error_handling_question ac ∈ identify_error_handling_gaps acs tcs ∧
      (error_handling_question ac).blocking = true := by
  intro acs tcs ac hac hsug
  refine ⟨?_, rfl⟩
  unfold identify_error_handling_gaps
  apply List.mem_flatMap.mpr
  refine ⟨ac, hac, ?_⟩
  rw [if_pos hsug]
  have hfilter : tcs.filter (fun tc =>
      (([tc.scenario_id].filter
          (fun _s => (test_case_related_requirements tc).contains ac.id)).any
        (fun s => !s.data.isEmpty))) = [] := by
    rw [show (fun tc : TestCase =>
        (([tc.scenario_id].filter
            (fun _s => (test_case_related_requirements tc).contains ac.id)).any
          (fun s => !s.data.isEmpty))) = (fun _ => false) from funext (fun tc => rfl)]
    exact List.filter_false tcs
  rw [hfilter]
  simp

/-- C10 witness: the question is emitted even when the test-case list contains
a negative test case exercising the AC's scenario. -/
theorem C10_validation_question_witness :
    error_handling_question ac1 ∈ identify_error_handling_gaps [ac1]
      [⟨"TC-001", "SCN-001", .negative, .P2, ["Try an invalid ZIP"], none,
        ["An error is shown"], true, none⟩] ∧
    (error_handling_question ac1).blocking = true :=
  C10_validation_question_always_emitted [ac1]
    [⟨"TC-001", "SCN-001", .negative, .P2, ["Try an invalid ZIP"], none,
      ["An error is shown"], true, none⟩] ac1 (by decide) (by decide)
